import Mathlib

/-!
Verification development for the HarmonyAI nlp-service core
(brand dictionary, abbreviation expander, text normalizer, match scorer,
HITL learning service).  The Python sources under `nlp-service/` are
shallowly embedded: strings are Lean `String`s, Python floats are `ℚ`
(all arithmetic in the embedded code is exact decimal arithmetic),
`None`-able values are `Option`s, and the mutable service objects are
explicit state records threaded through the operations.  External
libraries (sentence-transformers, `rapidfuzz.fuzz.ratio`,
`difflib.SequenceMatcher`, `unidecode`) are modelled as abstract
function parameters; file persistence is a no-op in the embedding since
no claim concerns the on-disk format.
-/

namespace HarmonyAI

/-! ## Python primitive helpers -/

/-- Python `str.upper()` (ASCII inputs). -/
def pyUpper (s : String) : String := String.mk (s.data.map Char.toUpper)

/-- Python `str.lower()` (ASCII inputs). -/
def pyLower (s : String) : String := String.mk (s.data.map Char.toLower)

/-- Python `str.strip()`: drop leading and trailing whitespace. -/
def pyStrip (s : String) : String :=
  String.mk (((s.data.dropWhile Char.isWhitespace).reverse.dropWhile Char.isWhitespace).reverse)

/-- Python `str.capitalize()`: first character upper-cased, the rest lower-cased. -/
def pyCapitalize (s : String) : String :=
  match s.data with
  | [] => ""
  | c :: t => String.mk (Char.toUpper c :: t.map Char.toLower)

/-- Split a character list at every character satisfying `p`
(each separator char starts a new chunk; empty chunks are kept,
to be filtered by the callers, mirroring `re.split` on a class). -/
def splitCharsOn (p : Char → Bool) : List Char → List (List Char)
  | [] => [[]]
  | c :: t =>
    match splitCharsOn p t with
    | [] => [[]]
    | h :: rs => if p c then [] :: h :: rs else (c :: h) :: rs

/-- Python `str.split()` with no argument: split on whitespace runs, no empty parts. -/
def pySplitWS (s : String) : List String :=
  ((splitCharsOn Char.isWhitespace s.data).map String.mk).filter (· ≠ "")

/-- Python `' '.join(s.split())`: collapse all whitespace runs to single spaces. -/
def collapseWS (s : String) : String := String.intercalate " " (pySplitWS s)

/-- Boolean string-prefix test, modelling Python `str.startswith`
(`prefixMatches pre s` means `s.startswith(pre)`). -/
def prefixMatches : List Char → List Char → Bool
  | [], _ => true
  | _ :: _, [] => false
  | a :: as, b :: bs => a = b && prefixMatches as bs

/-- Python `str.startswith`. -/
def strStartsWith (s pre : String) : Bool := prefixMatches pre.data s.data

/-- Association-list lookup modelling Python `dict` access
(`d[k]` / `d.get(k)`); keys in the embedded dictionaries are unique
(up to duplicates bound to the same value), so first-match lookup
agrees with Python dict semantics. -/
def dictGet {α : Type} (k : String) : List (String × α) → Option α
  | [] => none
  | (k', v) :: t => if k' = k then some v else dictGet k t

/-- Association-list insertion modelling Python `d[k] = v`:
replace in place if the key exists, else append. -/
def dictInsert {α : Type} (k : String) (v : α) : List (String × α) → List (String × α)
  | [] => [(k, v)]
  | (k', v') :: t => if k' = k then (k, v) :: t else (k', v') :: dictInsert k v t

/-- Truthiness of a Python `Optional[float]`: `None` and `0.0` are falsy. -/
def pyTruthyQ : Option ℚ → Bool
  | none => false
  | some x => if x = 0 then false else true

/-- Truthiness of a Python `Optional[str]`: `None` and `""` are falsy. -/
def pyTruthyS : Option String → Bool
  | none => false
  | some s => if s = "" then false else true

/-- Round-half-to-even on rationals, modelling Python `round` of a value
that is exactly representable (all values rounded in this code base are
decimal fractions away from ties). -/
def roundHalfEven (q : ℚ) : ℤ :=
  if q - ⌊q⌋ < 1 / 2 then ⌊q⌋
  else if 1 / 2 < q - ⌊q⌋ then ⌊q⌋ + 1
  else if ⌊q⌋ % 2 = 0 then ⌊q⌋ else ⌊q⌋ + 1

/-- Python `round(x, 2)`. -/
def pyRound2 (q : ℚ) : ℚ := (roundHalfEven (q * 100) : ℚ) / 100

/-- Value of a digit run, used for parsing the numeric part of a size token. -/
def digitsVal (l : List Char) : ℕ :=
  l.foldl (fun n c => n * 10 + (c.toNat - '0'.toNat)) 0

/-- Left-pad with zeros to the target length. -/
def padZeros (s : String) (n : ℕ) : String :=
  String.mk (List.replicate (n - s.data.length) '0') ++ s

/-- Python `str(float)` for the finite-decimal values produced by size
extraction (integers render as `n.0`, other finite decimals with their
shortest fractional digits). -/
def pyFloatRepr (q : ℚ) : String :=
  if q.den = 1 then toString q.num ++ ".0"
  else
    match (List.range 17).find? (fun k => (q * 10 ^ (k + 1)).den = 1) with
    | some k =>
      let m := (q * 10 ^ (k + 1)).num
      let a := m.natAbs
      (if m < 0 then "-" else "") ++ toString (a / 10 ^ (k + 1)) ++ "." ++
        padZeros (toString (a % 10 ^ (k + 1))) (k + 1)
    | none => toString q.num ++ "/" ++ toString q.den

/-! ## BrandDictionaryService (`services/brand_dictionary.py`) -/

/-- Canonical brand record stored in `_brand_dict` (`{name, category, manufacturer}`). -/
structure BrandInfo where
  name : String
  category : String
  manufacturer : String
deriving DecidableEq, Repr

/-- Result of `lookup_brand` (dataclass `BrandMatch`). -/
structure BrandMatch where
  original : String
  canonical_name : String
  confidence : ℚ
  category : Option String
  manufacturer : Option String
deriving DecidableEq, Repr

set_option maxHeartbeats 1000000 in
/-- Static brand table seeded by `_init_fmcg_brands` (keys are written
uppercase in the source literal, so `abbrev.upper()` is the identity on them). -/
def brandDict : List (String × BrandInfo) := [
  ("PEPSI", ⟨"Pepsi", "Beverages", "PepsiCo"⟩),
  ("PEP", ⟨"Pepsi", "Beverages", "PepsiCo"⟩),
  ("MOUNTAIN DEW", ⟨"Mountain Dew", "Beverages", "PepsiCo"⟩),
  ("MTN DEW", ⟨"Mountain Dew", "Beverages", "PepsiCo"⟩),
  ("MTN", ⟨"Mountain", "Beverages", "PepsiCo"⟩),
  ("DEW", ⟨"Dew", "Beverages", "PepsiCo"⟩),
  ("GATORADE", ⟨"Gatorade", "Beverages", "PepsiCo"⟩),
  ("GAT", ⟨"Gatorade", "Beverages", "PepsiCo"⟩),
  ("AQUAFINA", ⟨"Aquafina", "Beverages", "PepsiCo"⟩),
  ("AQF", ⟨"Aquafina", "Beverages", "PepsiCo"⟩),
  ("COCA-COLA", ⟨"Coca-Cola", "Beverages", "The Coca-Cola Company"⟩),
  ("COCA COLA", ⟨"Coca-Cola", "Beverages", "The Coca-Cola Company"⟩),
  ("COKE", ⟨"Coca-Cola", "Beverages", "The Coca-Cola Company"⟩),
  ("CC", ⟨"Coca-Cola", "Beverages", "The Coca-Cola Company"⟩),
  ("SPRITE", ⟨"Sprite", "Beverages", "The Coca-Cola Company"⟩),
  ("SPR", ⟨"Sprite", "Beverages", "The Coca-Cola Company"⟩),
  ("FANTA", ⟨"Fanta", "Beverages", "The Coca-Cola Company"⟩),
  ("FNT", ⟨"Fanta", "Beverages", "The Coca-Cola Company"⟩),
  ("DASANI", ⟨"Dasani", "Beverages", "The Coca-Cola Company"⟩),
  ("DAS", ⟨"Dasani", "Beverages", "The Coca-Cola Company"⟩),
  ("CREST", ⟨"Crest", "Oral Care", "Procter & Gamble"⟩),
  ("CR", ⟨"Crest", "Oral Care", "Procter & Gamble"⟩),
  ("CRST", ⟨"Crest", "Oral Care", "Procter & Gamble"⟩),
  ("COLGATE", ⟨"Colgate", "Oral Care", "Colgate-Palmolive"⟩),
  ("CG", ⟨"Colgate", "Oral Care", "Colgate-Palmolive"⟩),
  ("CLG", ⟨"Colgate", "Oral Care", "Colgate-Palmolive"⟩),
  ("SENSODYNE", ⟨"Sensodyne", "Oral Care", "GSK"⟩),
  ("SN", ⟨"Sensodyne", "Oral Care", "GSK"⟩),
  ("SENS", ⟨"Sensodyne", "Oral Care", "GSK"⟩),
  ("LISTERINE", ⟨"Listerine", "Oral Care", "Johnson & Johnson"⟩),
  ("LST", ⟨"Listerine", "Oral Care", "Johnson & Johnson"⟩),
  ("LSTR", ⟨"Listerine", "Oral Care", "Johnson & Johnson"⟩),
  ("HEAD & SHOULDERS", ⟨"Head & Shoulders", "Personal Care", "Procter & Gamble"⟩),
  ("HEAD AND SHOULDERS", ⟨"Head & Shoulders", "Personal Care", "Procter & Gamble"⟩),
  ("H&S", ⟨"Head & Shoulders", "Personal Care", "Procter & Gamble"⟩),
  ("HS", ⟨"Head & Shoulders", "Personal Care", "Procter & Gamble"⟩),
  ("PANTENE", ⟨"Pantene", "Personal Care", "Procter & Gamble"⟩),
  ("PAN", ⟨"Pantene", "Personal Care", "Procter & Gamble"⟩),
  ("PANT", ⟨"Pantene", "Personal Care", "Procter & Gamble"⟩),
  ("OLD SPICE", ⟨"Old Spice", "Personal Care", "Procter & Gamble"⟩),
  ("OS", ⟨"Old Spice", "Personal Care", "Procter & Gamble"⟩),
  ("SECRET", ⟨"Secret", "Personal Care", "Procter & Gamble"⟩),
  ("SCR", ⟨"Secret", "Personal Care", "Procter & Gamble"⟩),
  ("SCRT", ⟨"Secret", "Personal Care", "Procter & Gamble"⟩),
  ("DOVE", ⟨"Dove", "Personal Care", "Unilever"⟩),
  ("DV", ⟨"Dove", "Personal Care", "Unilever"⟩),
  ("DOV", ⟨"Dove", "Personal Care", "Unilever"⟩),
  ("AXE", ⟨"Axe", "Personal Care", "Unilever"⟩),
  ("DEGREE", ⟨"Degree", "Personal Care", "Unilever"⟩),
  ("DEG", ⟨"Degree", "Personal Care", "Unilever"⟩),
  ("TIDE", ⟨"Tide", "Household", "Procter & Gamble"⟩),
  ("TD", ⟨"Tide", "Household", "Procter & Gamble"⟩),
  ("TDE", ⟨"Tide", "Household", "Procter & Gamble"⟩),
  ("GAIN", ⟨"Gain", "Household", "Procter & Gamble"⟩),
  ("GN", ⟨"Gain", "Household", "Procter & Gamble"⟩),
  ("DAWN", ⟨"Dawn", "Household", "Procter & Gamble"⟩),
  ("DWN", ⟨"Dawn", "Household", "Procter & Gamble"⟩),
  ("PALMOLIVE", ⟨"Palmolive", "Household", "Colgate-Palmolive"⟩),
  ("PLM", ⟨"Palmolive", "Household", "Colgate-Palmolive"⟩),
  ("PERSIL", ⟨"Persil", "Household", "Henkel"⟩),
  ("PRS", ⟨"Persil", "Household", "Henkel"⟩),
  ("LAYS", ⟨"Lay\x27s", "Snacks", "PepsiCo"⟩),
  ("LAY\x27S", ⟨"Lay\x27s", "Snacks", "PepsiCo"⟩),
  ("LAY", ⟨"Lay\x27s", "Snacks", "PepsiCo"⟩),
  ("DORITOS", ⟨"Doritos", "Snacks", "PepsiCo"⟩),
  ("DOR", ⟨"Doritos", "Snacks", "PepsiCo"⟩),
  ("TOSTITOS", ⟨"Tostitos", "Snacks", "PepsiCo"⟩),
  ("TOS", ⟨"Tostitos", "Snacks", "PepsiCo"⟩),
  ("PRINGLES", ⟨"Pringles", "Snacks", "Kellogg\x27s"⟩),
  ("PRG", ⟨"Pringles", "Snacks", "Kellogg\x27s"⟩),
  ("OREO", ⟨"Oreo", "Snacks", "Mondelez"⟩),
  ("ORO", ⟨"Oreo", "Snacks", "Mondelez"⟩),
  ("CHIPS AHOY", ⟨"Chips Ahoy!", "Snacks", "Mondelez"⟩),
  ("CHIPS AHOY!", ⟨"Chips Ahoy!", "Snacks", "Mondelez"⟩),
  ("CHP", ⟨"Chips Ahoy!", "Snacks", "Mondelez"⟩)]

/-- Static word-abbreviation table seeded by `_init_common_abbreviations`
(keys are already uppercase in the source literal; the duplicate `GNTL`
entry of the source binds the same value and is kept once, which is
observationally equal to the Python dict). -/
def abbreviationDict : List (String × String) := [
  ("ORIG", "Original"), ("ORG", "Original"), ("ORGNL", "Original"),
  ("WHT", "White"), ("WHTN", "Whitening"), ("WHTNG", "Whitening"),
  ("CLN", "Clean"), ("FRSH", "Fresh"), ("FRS", "Fresh"),
  ("ADV", "Advanced"), ("ADVNC", "Advanced"),
  ("ULT", "Ultra"), ("ULTR", "Ultra"),
  ("GNTL", "Gentle"), ("GNT", "Gentle"),
  ("RDNT", "Radiant"), ("RAD", "Radiant"),
  ("PRO", "Pro"), ("PRHLTH", "Pro-Health"), ("PROHLTH", "Pro-Health"),
  ("TOTL", "Total"), ("TTL", "Total"), ("TOT", "Total"),
  ("CLNC", "Clinical"), ("CLNCL", "Clinical"),
  ("DLY", "Daily"),
  ("MSTR", "Moisture"), ("MOIST", "Moisture"),
  ("RNWL", "Renewal"), ("RENWL", "Renewal"),
  ("CLS", "Classic"), ("CLSC", "Classic"),
  ("CMFRT", "Comfort"), ("COMF", "Comfort"),
  ("CL", "Cool"), ("RSH", "Rush"),
  ("MTN SNS", "Motion Sense"),
  ("ARCT", "Arctic"), ("ARCTC", "Arctic"),
  ("MNT", "Mint"), ("MINT", "Mint"),
  ("LMN", "Lemon"), ("LIME", "Lime"),
  ("ORNG", "Orange"), ("ORN", "Orange"),
  ("ZRO", "Zero"), ("ZERO", "Zero"),
  ("SGR", "Sugar"), ("SGAR", "Sugar"),
  ("FRE", "Free"), ("FREE", "Free"),
  ("PRFD", "Purified"), ("PURE", "Purified"),
  ("WTR", "Water"),
  ("2IN1", "2-in-1"), ("2N1", "2-in-1"),
  ("PROV", "Pro-V"), ("PRV", "Pro-V"),
  ("SWGR", "Swagger"), ("FJI", "Fiji"),
  ("APLL", "Apollo"), ("APLO", "Apollo"),
  ("CMPL", "Complete"), ("COMPLT", "Complete"),
  ("BBQ", "BBQ"),
  ("SR CRM", "Sour Cream"), ("SRCM", "Sour Cream"),
  ("SR", "Sour"), ("CRM", "Cream"),
  ("ONION", "Onion"), ("ONIN", "Onion"),
  ("NCH", "Nacho"), ("NCHO", "Nacho"),
  ("CHS", "Cheese"), ("CHSE", "Cheese"),
  ("RNCH", "Ranch"), ("RANCH", "Ranch"),
  ("DBL", "Double"), ("DBLE", "Double"),
  ("STF", "Stuf"), ("STUF", "Stuf"),
  ("PLTNM", "Platinum"), ("PLAT", "Platinum"),
  ("LQD", "Liquid"), ("OXI", "Oxi"),
  ("PROCLN", "ProClean"), ("PROCLEAN", "ProClean"),
  ("CODE", "Code"),
  ("RED", "Red"), ("BLU", "Blue"), ("GRN", "Green"),
  ("3D", "3D"), ("3DW", "3D White")]

/-- Mutable state of a `BrandDictionaryService` instance: the learned
mappings (`_learned_mappings`); the static tables are the fixed constants
above.  A fresh instance (missing/empty learned store) has `learned = []`. -/
structure BrandState where
  learned : List (String × String)
deriving DecidableEq, Repr

/-- A freshly constructed `BrandDictionaryService` (no custom dictionary,
no persisted learned mappings). -/
def initBrand : BrandState := ⟨[]⟩

/-- `BrandDictionaryService.lookup_brand`: exact case-insensitive match
against the static brand dictionary first (confidence 1.0), then one
indirection through the learned mappings (confidence 0.95). -/
def lookup_brand (st : BrandState) (text : String) : Option BrandMatch :=
  let text_upper := pyUpper (pyStrip text)
  match dictGet text_upper brandDict with
  | some info =>
    some ⟨text, info.name, 1, some info.category, some info.manufacturer⟩
  | none =>
    match dictGet text_upper st.learned with
    | some learned =>
      match dictGet (pyUpper learned) brandDict with
      | some info => some ⟨text, info.name, 19/20, some info.category, some info.manufacturer⟩
      | none => none
    | none => none

/-- `BrandDictionaryService.expand_abbreviation`: static abbreviation
table first, then the learned table. -/
def expand_abbreviation (st : BrandState) (ab : String) : Option String :=
  let abbrev_upper := pyUpper (pyStrip ab)
  match dictGet abbrev_upper abbreviationDict with
  | some e => some e
  | none => dictGet abbrev_upper st.learned

/-- `BrandDictionaryService.learn_abbreviation`: upsert into the learned
table (the synchronous file rewrite is a no-op in the embedding). -/
def learn_abbreviation (st : BrandState) (abbreviation full_text : String) : BrandState :=
  ⟨dictInsert (pyUpper (pyStrip abbreviation)) full_text st.learned⟩

/-! ## AbbreviationExpanderService (`services/abbreviation_expander.py`)

`difflib.SequenceMatcher(None, a, b).ratio()` is an external standard
library heuristic; it is modelled as an abstract parameter
`seqSim : String → String → ℚ` threaded into the fuzzy strategy. -/

/-- Result of `expand` (dataclass `ExpansionResult`). -/
structure ExpansionResult where
  original : String
  expanded : String
  confidence : ℚ
  method : String
deriving DecidableEq, Repr

set_option maxHeartbeats 1000000 in
/-- Known-word table built by `_init_common_words`: uppercase key to the
canonical word, in the insertion order of the source list (iteration
order matters for the pattern and fuzzy strategies). -/
def commonWords : List (String × String) := [
  ("ORIGINAL", "Original"), ("WHITE", "White"), ("WHITENING", "Whitening"),
  ("CLEAN", "Clean"), ("FRESH", "Fresh"), ("ADVANCED", "Advanced"),
  ("ULTRA", "Ultra"), ("GENTLE", "Gentle"), ("RADIANT", "Radiant"),
  ("PRO", "Pro"), ("HEALTH", "Health"), ("TOTAL", "Total"),
  ("CLINICAL", "Clinical"), ("DAILY", "Daily"), ("MOISTURE", "Moisture"),
  ("RENEWAL", "Renewal"), ("CLASSIC", "Classic"), ("COMFORT", "Comfort"),
  ("COOL", "Cool"), ("RUSH", "Rush"), ("MOTION", "Motion"),
  ("SENSE", "Sense"), ("ARCTIC", "Arctic"), ("MINT", "Mint"),
  ("LEMON", "Lemon"), ("LIME", "Lime"), ("ORANGE", "Orange"),
  ("ZERO", "Zero"), ("SUGAR", "Sugar"), ("FREE", "Free"),
  ("PURIFIED", "Purified"), ("WATER", "Water"), ("SWAGGER", "Swagger"),
  ("FIJI", "Fiji"), ("APOLLO", "Apollo"), ("COMPLETE", "Complete"),
  ("CREAM", "Cream"), ("ONION", "Onion"), ("NACHO", "Nacho"),
  ("CHEESE", "Cheese"), ("RANCH", "Ranch"), ("DOUBLE", "Double"),
  ("STUF", "Stuf"), ("PLATINUM", "Platinum"), ("LIQUID", "Liquid"),
  ("RED", "Red"), ("BLUE", "Blue"), ("GREEN", "Green"),
  ("MOUNTAIN", "Mountain"), ("SPRING", "Spring"), ("BERRY", "Berry"),
  ("TROPICAL", "Tropical"), ("VANILLA", "Vanilla"), ("CHOCOLATE", "Chocolate"),
  ("STRAWBERRY", "Strawberry"), ("CHERRY", "Cherry"), ("GRAPE", "Grape"),
  ("APPLE", "Apple"), ("PEACH", "Peach"), ("MANGO", "Mango")]

/-- The regex `[AEIOU]` with `re.IGNORECASE` substituted by the empty
string: remove all vowels, case-insensitively. -/
def removeVowelsCI (s : String) : String :=
  String.mk (s.data.filter (fun c => !(['A', 'E', 'I', 'O', 'U'].contains c.toUpper)))

/-- `AbbreviationExpanderService._try_vowel_pattern`: first common word
whose consonant skeleton equals the (already uppercased) token skeleton,
the token being strictly shorter. -/
def try_vowel_pattern (ab : String) : Option String :=
  let abbrev_consonants := removeVowelsCI ab
  (commonWords.find? (fun wc =>
    removeVowelsCI wc.1 = abbrev_consonants && ab.data.length < wc.1.data.length)).map (·.2)

/-- One iteration of the `_fuzzy_match` loop body: update the
(best match, best score) pair with the prefix-bonus check and the
sequence-similarity check for the candidate word `wc`. -/
def fuzzyStep (seqSim : String → String → ℚ) (ab : String)
    (best : Option String × ℚ) (wc : String × String) : Option String × ℚ :=
  let best :=
    if strStartsWith wc.1 ab && decide (2 ≤ ab.data.length) then
      let score : ℚ := (ab.data.length : ℚ) / (wc.1.data.length : ℚ) + 3/10
      if best.2 < score then (some wc.2, min score 1) else best
    else best
  let similarity := seqSim ab wc.1
  if best.2 < similarity ∧ 6/10 ≤ similarity then (some wc.2, similarity) else best

/-- `AbbreviationExpanderService._fuzzy_match`: fold the update over the
common words in insertion order, starting from `(None, 0.0)`. -/
def fuzzy_match (seqSim : String → String → ℚ) (ab : String) : Option String × ℚ :=
  commonWords.foldl (fuzzyStep seqSim ab) (none, 0)

/-- `AbbreviationExpanderService.expand`: the four fallback strategies in
strict order — static/learned dictionary, known word, vowel pattern,
fuzzy — else the capitalized original with confidence 0. -/
def expand (seqSim : String → String → ℚ) (st : BrandState) (ab : String) : ExpansionResult :=
  let abbrev_clean := pyUpper (pyStrip ab)
  match expand_abbreviation st abbrev_clean with
  | some dict_result => ⟨ab, dict_result, 1, "dictionary"⟩
  | none =>
    match dictGet abbrev_clean commonWords with
    | some w => ⟨ab, w, 1, "dictionary"⟩
    | none =>
      match try_vowel_pattern abbrev_clean with
      | some pattern_result => ⟨ab, pattern_result, 17/20, "pattern"⟩
      | none =>
        match fuzzy_match seqSim abbrev_clean with
        | (some fuzzy_result, fuzzy_score) =>
          if 6/10 ≤ fuzzy_score then ⟨ab, fuzzy_result, fuzzy_score, "fuzzy"⟩
          else ⟨ab, pyCapitalize ab, 0, "none"⟩
        | (none, _) => ⟨ab, pyCapitalize ab, 0, "none"⟩

/-! ## TextNormalizerService (`services/text_normalizer.py`) -/

/-- Result of `normalize` (dataclass `NormalizedText`). -/
structure NormalizedText where
  original : String
  normalized : String
  brand : Option String
  brand_confidence : ℚ
  size_value : Option ℚ
  size_unit : Option String
  size_normalized_ml : Option ℚ
  tokens_expanded : List (String × String)
  category_hint : Option String
deriving DecidableEq, Repr

/-- The `_unit_conversions` table (to ml or g). -/
def unitConversions : List (String × ℚ) := [
  ("ml", 1), ("l", 1000), ("ltr", 1000), ("liter", 1000), ("litre", 1000),
  ("oz", 295735/10000), ("fl oz", 295735/10000), ("floz", 295735/10000),
  ("g", 1), ("gm", 1), ("gram", 1), ("kg", 1000),
  ("lb", 453592/1000), ("lbs", 453592/1000),
  ("ct", 1), ("count", 1), ("pk", 1), ("pack", 1)]

/-- Case-insensitively match the literal `lit` (given lowercase) at the
head of `cs`; return the remaining characters on success. -/
def matchLit : List Char → List Char → Option (List Char)
  | [], cs => some cs
  | _ :: _, [] => none
  | a :: as, c :: cs => if c.toLower = a then matchLit as cs else none

/-- Try a list of plain unit alternatives in the order of the regex
alternation; on success return the alternative (which, being lowercase
and space-free, equals `group(2).lower().replace(' ', '')`) and the rest. -/
def tryAlts : List String → List Char → Option (String × List Char)
  | [], _ => none
  | a :: as, cs =>
    match matchLit a.data cs with
    | some rest => some (a, rest)
    | none => tryAlts as cs

/-- Match the `fl\s*oz` alternative (with its inner greedy `\s*`). -/
def matchFlOz (cs : List Char) : Option (List Char) :=
  match matchLit ['f', 'l'] cs with
  | some r => matchLit ['o', 'z'] (r.dropWhile Char.isWhitespace)
  | none => none

/-- Match the unit alternation
`(ml|l|ltr|liter|litre|oz|fl\s*oz|floz|g|gm|gram|kg|lb|lbs|ct|count|pk|pack)`
of `_size_pattern` at the head of `cs`, alternatives tried in the
pattern's order; the returned string is `group(2).lower().replace(' ','')`. -/
def matchUnit (cs : List Char) : Option (String × List Char) :=
  match tryAlts ["ml", "l", "ltr", "liter", "litre", "oz"] cs with
  | some r => some r
  | none =>
    match matchFlOz cs with
    | some rest => some ("floz", rest)
    | none => tryAlts ["floz", "g", "gm", "gram", "kg", "lb", "lbs", "ct", "count", "pk", "pack"] cs

/-- Match `_size_pattern` = `(\d+(?:\.\d+)?)\s*(unit-alternation)` at the
head of `cs`.  `\d+` and the fractional digits are greedy (no shorter
prefix can succeed because no unit alternative begins with a digit); the
optional fractional group backtracks to absence if no unit follows it;
`\s*` between number and unit is greedy (no alternative begins with
whitespace, so consuming the whole run is the only viable choice).
Returns ((integer digits, fractional digits), unit key, rest after match). -/
def matchSizeAt (cs : List Char) : Option ((List Char × List Char) × String × List Char) :=
  let intd := cs.takeWhile Char.isDigit
  if intd.isEmpty then none
  else
    let r1 := cs.drop intd.length
    let withFrac :=
      match r1 with
      | '.' :: r2 =>
        let frac := r2.takeWhile Char.isDigit
        if frac.isEmpty then none
        else
          match matchUnit ((r2.drop frac.length).dropWhile Char.isWhitespace) with
          | some (u, rest) => some ((intd, frac), u, rest)
          | none => none
      | _ => none
    match withFrac with
    | some res => some res
    | none =>
      match matchUnit (r1.dropWhile Char.isWhitespace) with
      | some (u, rest) => some ((intd, []), u, rest)
      | none => none

/-- `re.search` with `_size_pattern`: try every start position left to
right and return the first match's number and unit groups. -/
def searchSize : List Char → Option ((List Char × List Char) × String)
  | [] => none
  | c :: t =>
    match matchSizeAt (c :: t) with
    | some (num, u, _) => some (num, u)
    | none => searchSize t

/-- `_size_pattern.sub('', ·)`: delete every non-overlapping match,
scanning left to right and resuming after each match.  The fuel is the
length of the text; every match consumes at least two characters, so the
fuel never runs out when initialized that way. -/
def sizeSubAux : ℕ → List Char → List Char
  | 0, _ => []
  | _ + 1, [] => []
  | k + 1, c :: t =>
    match matchSizeAt (c :: t) with
    | some (_, _, rest) => sizeSubAux k rest
    | none => c :: sizeSubAux k t

/-- `_size_pattern.sub('', text)`. -/
def sizeSub (s : String) : String := String.mk (sizeSubAux s.data.length s.data)

/-- `TextNormalizerService._extract_size`: first `_size_pattern` match,
value, canonicalized display unit, and the value converted to ml/g and
rounded to 2 decimals. -/
def extract_size (text : String) : Option ℚ × Option String × Option ℚ :=
  match searchSize text.data with
  | none => (none, none, none)
  | some ((intd, frac), unit) =>
    let value : ℚ := (digitsVal intd : ℚ) + (digitsVal frac : ℚ) / 10 ^ frac.length
    let conversion := (dictGet unit unitConversions).getD 1
    let normalized := pyRound2 (value * conversion)
    let unit_display :=
      if unit = "floz" ∨ unit = "fl oz" then "oz"
      else if unit = "ltr" ∨ unit = "liter" ∨ unit = "litre" then "L"
      else if unit = "gm" then "g"
      else unit
    (some value, some unit_display, some normalized)

/-- Characters kept by `_clean_text`: the class `[^\w\s\-&\.\']` is
replaced by a space (`\w` is alphanumeric plus underscore on this
ASCII data). -/
def isKeptChar (c : Char) : Bool :=
  c.isAlphanum || c = '_' || c.isWhitespace || c = '-' || c = '&' || c = '.' || c = '\x27'

/-- `TextNormalizerService._clean_text`: replace disallowed characters
by spaces, then `' '.join(text.split())`. -/
def clean_text (text : String) : String :=
  collapseWS (String.mk (text.data.map (fun c => if isKeptChar c then c else ' ')))

/-- `TextNormalizerService._tokenize`: `re.split(r'[\s\-_]+', text)`
with empty tokens filtered (tokens contain no separator characters, so
the `t.strip()` filter of the source is the nonemptiness filter). -/
def tokenize (text : String) : List String :=
  ((splitCharsOn (fun c => c.isWhitespace || c = '-' || c = '_') text.data).map String.mk).filter
    (· ≠ "")

/-- The brand-detection loop of `normalize` (`for i in range(min(3, len(tokens)), 0, -1)`):
join the first `i` tokens and look them up, longest window first; on the
first hit return (joined window, match, i). -/
def brandLoop (st : BrandState) (tokens : List String) : ℕ → Option (String × BrandMatch × ℕ)
  | 0 => none
  | i + 1 =>
    let potential_brand := String.intercalate " " (tokens.take (i + 1))
    match lookup_brand st potential_brand with
    | some m => some (potential_brand, m, i + 1)
    | none => brandLoop st tokens i

/-- The token-expansion loop of `normalize` (`for i, token in enumerate(tokens)`
at starting index `i`, skipping indices below `used`): returns the
normalized tokens and the (original, expanded) pairs appended, in order. -/
def expandLoop (st : BrandState) (used : ℕ) : ℕ → List String → List String × List (String × String)
  | _, [] => ([], [])
  | i, t :: ts =>
    let rest := expandLoop st used (i + 1) ts
    if i < used then rest
    else
      match expand_abbreviation st t with
      | some e => (e :: rest.1, (t, e) :: rest.2)
      | none => (pyCapitalize t :: rest.1, rest.2)

/-- `TextNormalizerService.normalize`: clean, extract size, strip every
size-pattern match, tokenize, detect the brand on the leading window,
expand the remaining tokens through the dictionary, reassemble, and
re-append the size suffix when value and unit are both truthy. -/
def normalize (st : BrandState) (text : String) : NormalizedText :=
  let original := pyStrip text
  let cleaned := clean_text original
  let szv := extract_size cleaned
  let size_value := szv.1
  let size_unit := szv.2.1
  let size_normalized := szv.2.2
  let text_without_size := pyStrip (sizeSub cleaned)
  let tokens := tokenize text_without_size
  let det := brandLoop st tokens (min 3 tokens.length)
  let brand : Option String := det.map (fun d => d.2.1.canonical_name)
  let brand_confidence : ℚ := (det.map (fun d => d.2.1.confidence)).getD 0
  let category_hint : Option String := (det.map (fun d => d.2.1.category)).getD none
  let brand_tokens_used : ℕ := (det.map (fun d => d.2.2)).getD 0
  let brandPairs : List (String × String) :=
    match det, brand with
    | some d, some b => [(d.1, b)]
    | _, _ => []
  let exp := expandLoop st brand_tokens_used 0 tokens
  let normalized_tokens := (match brand with | some b => [b] | none => []) ++ exp.1
  let tokens_expanded := brandPairs ++ exp.2
  let joined := String.intercalate " " normalized_tokens
  let normalized :=
    if pyTruthyQ size_value && pyTruthyS size_unit then
      joined ++ " " ++ pyFloatRepr (size_value.getD 0) ++ size_unit.getD ""
    else joined
  ⟨original, normalized, brand, brand_confidence, size_value, size_unit, size_normalized,
    tokens_expanded, category_hint⟩

/-! ## Match scorer (`main.py`)

`unidecode` (accent folding) and `rapidfuzz.fuzz.ratio` (a 0–100 string
similarity with `ratio(x, x) = 100`) are external libraries, modelled as
the abstract parameters of `Ext`. -/

/-- The external text libraries used by `main.py`. -/
structure Ext where
  unidec : String → String
  fuzzScore : String → String → ℚ

/-- `normalize_text_basic`: lowercase, accent-fold, replace characters
outside `[a-z0-9\s]` by spaces, collapse whitespace and strip. -/
def normalize_text_basic (ext : Ext) (text : String) : String :=
  let t := ext.unidec (pyLower text)
  let t := String.mk (t.data.map (fun c =>
    if ('a' ≤ c ∧ c ≤ 'z') ∨ ('0' ≤ c ∧ c ≤ '9') ∨ c.isWhitespace then c else ' '))
  collapseWS t

/-- `calculate_attribute_score`: weighted sum of brand similarity
(weight 0.5), size closeness (weight 0.35) and category match
(weight 0.15), with Python truthiness on the optional inputs and
half-credit when both sides of a term are absent. -/
def calculate_attribute_score (ext : Ext) (master_brand raw_brand : Option String)
    (master_size_ml raw_size_ml : Option ℚ) (category_match : Bool) : ℚ :=
  let brand_term : ℚ :=
    if pyTruthyS master_brand && pyTruthyS raw_brand then
      let brand_similarity :=
        ext.fuzzScore (normalize_text_basic ext (master_brand.getD ""))
          (normalize_text_basic ext (raw_brand.getD "")) / 100
      1/2 * brand_similarity
    else if !pyTruthyS master_brand && !pyTruthyS raw_brand then 1/2 * (1/2)
    else 0
  let size_term : ℚ :=
    if pyTruthyQ master_size_ml && pyTruthyQ raw_size_ml
        && decide (0 < master_size_ml.getD 0) then
      let a := master_size_ml.getD 0
      let b := raw_size_ml.getD 0
      let size_diff := |a - b| / max a b
      let size_score := max 0 (1 - size_diff)
      7/20 * size_score
    else if !pyTruthyQ master_size_ml && !pyTruthyQ raw_size_ml then 7/20 * (1/2)
    else 0
  let category_term : ℚ := if category_match then 3/20 else 0
  brand_term + size_term + category_term

/-- `calculate_final_confidence` with the default weights 0.70/0.30:
a weighted sum plus the normalization bonus, clamped from above at 1.0
(and only from above). -/
def calculate_final_confidence (semantic_score attribute_score normalization_bonus : ℚ) : ℚ :=
  let base_score := 7/10 * semantic_score + 3/10 * attribute_score
  min 1 (base_score + normalization_bonus)

/-! ## LearningService (`services/learning_service.py`)

Timestamps (`datetime.utcnow().isoformat()`) are external input,
threaded as an explicit `now : String` argument; persistence
(`_save_data`) is a no-op in the embedding. -/

/-- Dataclass `HITLDecision` (corrections payload kept opaque). -/
structure HITLDecision where
  mapping_id : String
  raw_description : String
  master_product : String
  decision : String
  original_confidence : ℚ
  retailer : String
  timestamp : String
  corrections : Option (List (String × String))
deriving DecidableEq, Repr

/-- Dataclass `LearnedPattern`. -/
structure LearnedPattern where
  abbreviation : String
  expansion : String
  occurrences : ℕ
  confidence : ℚ
  retailers : List String
  last_seen : String
deriving DecidableEq, Repr

/-- Per-retailer statistics record (the defaultdict entry of
`_retailer_stats`). -/
structure RetailerStats where
  total : ℕ
  approved : ℕ
  rejected : ℕ
  avg_confidence_approved : ℚ
  avg_confidence_rejected : ℚ
deriving DecidableEq, Repr

/-- The defaultdict default entry. -/
def defaultRetailerStats : RetailerStats := ⟨0, 0, 0, 0, 0⟩

/-- Mutable state of a `LearningService` instance, together with the
`BrandDictionaryService` it writes promoted patterns into. -/
structure LearnState where
  brand : BrandState
  decisions : List HITLDecision
  patterns : List (String × LearnedPattern)
  retailerStats : List (String × RetailerStats)
deriving DecidableEq, Repr

/-- A freshly constructed `LearningService` over a fresh brand service
(no persisted data). -/
def initLearn : LearnState := ⟨initBrand, [], [], []⟩

/-- The stats entry for a retailer, with the defaultdict default. -/
def statsFor (st : LearnState) (retailer : String) : RetailerStats :=
  (dictGet retailer st.retailerStats).getD defaultRetailerStats

/-- `LearningService._update_retailer_stats` on one stats record:
increment `total`, then the approved or rejected branch updates its
count and running mean (any decision other than `'approved'` goes to
the rejected branch). -/
def update_retailer_stats (s : RetailerStats) (d : HITLDecision) : RetailerStats :=
  let s := { s with total := s.total + 1 }
  if d.decision = "approved" then
    let n := s.approved + 1
    { s with
      approved := n
      avg_confidence_approved :=
        (s.avg_confidence_approved * ((n - 1 : ℕ) : ℚ) + d.original_confidence) / (n : ℚ) }
  else
    let n := s.rejected + 1
    { s with
      rejected := n
      avg_confidence_rejected :=
        (s.avg_confidence_rejected * ((n - 1 : ℕ) : ℚ) + d.original_confidence) / (n : ℚ) }

/-- Consonant skeleton used by `_is_abbreviation_of`
(`''.join(c for c in s if c not in 'AEIOU')` on uppercased input). -/
def consonantsOf (s : String) : String :=
  String.mk (s.data.filter (fun c => !(['A', 'E', 'I', 'O', 'U'].contains c)))

/-- `LearningService._is_abbreviation_of`: strictly shorter, and either
the consonant skeleton is a nonempty prefix of the candidate's skeleton,
or the candidate starts with the token (token length at least 2). -/
def is_abbreviation_of (ab full : String) : Bool :=
  let a := pyUpper ab
  let f := pyUpper full
  if f.data.length ≤ a.data.length then false
  else
    let abbrev_consonants := consonantsOf a
    let full_consonants := consonantsOf f
    if !abbrev_consonants.data.isEmpty
        && prefixMatches abbrev_consonants.data full_consonants.data then true
    else if strStartsWith f a && decide (2 ≤ a.data.length) then true
    else false

/-- `LearningService._record_pattern`: create or update the
`LearnedPattern` for the uppercased abbreviation (occurrences +1,
confidence `min(0.95, 0.7 + occurrences*0.05)`, retailer set grown),
then promote it into the brand service once confidence ≥ 0.8 and
occurrences ≥ 3. -/
def record_pattern (st : LearnState) (ab expansion retailer now : String) : LearnState :=
  let key := pyUpper ab
  let pats :=
    match dictGet key st.patterns with
    | some p =>
      let occ := p.occurrences + 1
      dictInsert key
        { p with
          occurrences := occ
          last_seen := now
          retailers := if retailer ∈ p.retailers then p.retailers else p.retailers ++ [retailer]
          confidence := min (19/20) (7/10 + (occ : ℚ) * (5/100)) } st.patterns
    | none =>
      dictInsert key
        ⟨pyUpper ab, pyCapitalize expansion, 1, 7/10, [retailer], now⟩ st.patterns
  let st' := { st with patterns := pats }
  match dictGet key pats with
  | some pattern =>
    if 8/10 ≤ pattern.confidence ∧ 3 ≤ pattern.occurrences then
      { st' with brand := learn_abbreviation st'.brand ab (pyCapitalize expansion) }
    else st'
  | none => st'

/-- `LearningService._learn_from_approval`: for every raw token without
digits and of length ≥ 2, record a pattern against the first master
token it abbreviates. -/
def learn_from_approval (st : LearnState) (raw master retailer now : String) : LearnState :=
  let raw_tokens := pySplitWS (pyUpper raw)
  let master_tokens := pySplitWS (pyUpper master)
  raw_tokens.foldl (fun acc tok =>
    if tok.data.any Char.isDigit then acc
    else if tok.data.length < 2 then acc
    else
      match master_tokens.find? (fun m => is_abbreviation_of tok m) with
      | some m => record_pattern acc tok m retailer now
      | none => acc) st

/-- `LearningService.record_decision`: append the immutable decision,
update the retailer statistics, and run pattern extraction exactly when
the decision string is `'approved'`. -/
def record_decision (st : LearnState) (mapping_id raw_description master_product decision : String)
    (original_confidence : ℚ) (retailer now : String)
    (corrections : Option (List (String × String))) : LearnState × HITLDecision :=
  let d : HITLDecision :=
    ⟨mapping_id, raw_description, master_product, decision, original_confidence,
      retailer, now, corrections⟩
  let st := { st with decisions := st.decisions ++ [d] }
  let newStats :=
    dictInsert d.retailer (update_retailer_stats (statsFor st d.retailer) d) st.retailerStats
  let st := { st with retailerStats := newStats }
  let st :=
    if decision = "approved" then
      learn_from_approval st raw_description master_product retailer now
    else st
  (st, d)

/-- Return value of `get_confidence_recommendations` (the branch-specific
payload keys are `Option`s). -/
structure ConfidenceRecommendations where
  auto_confirm_threshold : ℚ
  review_threshold : ℚ
  message : Option String
  total_decisions : Option ℕ
  approved : Option ℕ
  rejected : Option ℕ
  approval_rate : Option ℚ
deriving DecidableEq, Repr

/-- The confidences of recorded approved decisions, in recording order. -/
def approvedConfidences (st : LearnState) : List ℚ :=
  (st.decisions.filter (fun d => d.decision == "approved")).map (·.original_confidence)

/-- The confidences of recorded rejected decisions, in recording order. -/
def rejectedConfidences (st : LearnState) : List ℚ :=
  (st.decisions.filter (fun d => d.decision == "rejected")).map (·.original_confidence)

/-- `LearningService.get_confidence_recommendations`: defaults when no
decisions or no approvals exist; otherwise the auto-confirm threshold is
the 5th-percentile element (`int(len*0.05)`, i.e. `⌊n/20⌋`) of the
ascending-sorted approved confidences, and the review threshold is
`max(0.50, min(rejected) - 0.05)` (default 0.70 when no rejections);
both are returned through `round(·, 2)`. -/
def get_confidence_recommendations (st : LearnState) : ConfidenceRecommendations :=
  if st.decisions.isEmpty then
    ⟨19/20, 7/10, some "No HITL data yet. Using defaults.", none, none, none, none⟩
  else
    let approved_confidences := approvedConfidences st
    let rejected_confidences := rejectedConfidences st
    if approved_confidences.isEmpty then
      ⟨19/20, 7/10, some "No approved matches yet.", none, none, none, none⟩
    else
      let sorted := List.insertionSort (· ≤ ·) approved_confidences
      let idx_95 := approved_confidences.length * 5 / 100
      let auto_confirm := sorted.getD idx_95 (19/20)
      let review_threshold : ℚ :=
        match rejected_confidences with
        | [] => 7/10
        | r :: rs => max (1/2) (rs.foldl min r - 5/100)
      ⟨pyRound2 auto_confirm, pyRound2 review_threshold, none,
        some st.decisions.length, some approved_confidences.length,
        some rejected_confidences.length,
        some ((approved_confidences.length : ℚ) / (st.decisions.length : ℚ))⟩

/-! ## Supporting lemmas -/

/-- Looking up a key just inserted returns the inserted value. -/
theorem dictGet_dictInsert_self {α : Type} (k : String) (v : α) (l : List (String × α)) :
    dictGet k (dictInsert k v l) = some v := by
  induction l with
  | nil => simp [dictInsert, dictGet]
  | cons h t ih =>
    obtain ⟨k', v'⟩ := h
    by_cases hk : k' = k
    · subst hk; simp [dictInsert, dictGet]
    · simp [dictInsert, dictGet, hk, ih]

/-- Rounding half to even never loses more than one half. -/
theorem roundHalfEven_ge (q : ℚ) : q - 1 / 2 ≤ (roundHalfEven q : ℚ) := by
  have h1 : (⌊q⌋ : ℚ) ≤ q := Int.floor_le q
  have h2 : q < ⌊q⌋ + 1 := Int.lt_floor_add_one q
  unfold roundHalfEven
  split_ifs <;> push_cast <;> linarith

/-- Python `round(x, 2)` never goes below `x - 0.005`. -/
theorem pyRound2_ge (q : ℚ) : q - 1 / 200 ≤ pyRound2 q := by
  have h := roundHalfEven_ge (q * 100)
  unfold pyRound2
  linarith

/-- A `getD` at an in-range index is a member of the list. -/
theorem getD_mem {α : Type} (l : List α) (n : ℕ) (d : α) (h : n < l.length) :
    l.getD n d ∈ l := by
  induction l generalizing n with
  | nil => simp at h
  | cons a t ih =>
    cases n with
    | zero => simp [List.getD_cons_zero]
    | succ m =>
      rw [List.getD_cons_succ]
      exact List.mem_cons_of_mem _ (ih m (by simpa using h))

/-- The expansion loop of `normalize`, started at index `i`, processes
exactly the tokens after the first `used - i` positions, applying the
dictionary expansion to each and capitalizing on a miss, and collects
exactly the successful dictionary expansions as pairs. -/
theorem expandLoop_general (st : BrandState) (used : ℕ) (ts : List String) :
    ∀ i : ℕ,
      expandLoop st used i ts =
        ((ts.drop (used - i)).map fun t => (expand_abbreviation st t).getD (pyCapitalize t),
         (ts.drop (used - i)).filterMap fun t => (expand_abbreviation st t).map fun e => (t, e)) := by
  induction ts with
  | nil => intro i; simp [expandLoop]
  | cons t ts ih =>
    intro i
    by_cases h : i < used
    · have hd : used - i = (used - (i + 1)) + 1 := by omega
      simp only [expandLoop, if_pos h, ih (i + 1), hd, List.drop_succ_cons]
    · have hd : used - i = 0 := by omega
      have hd2 : used - (i + 1) = 0 := by omega
      simp only [expandLoop, if_neg h, ih (i + 1), hd, hd2, List.drop_zero]
      cases hexp : expand_abbreviation st t <;>
        simp [hexp, List.map_cons, List.filterMap_cons]

/-! ## Claim theorems -/

/-- A trivial stand-in for the external `SequenceMatcher` similarity;
the inputs below are decided by the earlier strategies, which never
consult it. -/
def zeroSim : String → String → ℚ := fun _ _ => 0

/-- Claim C1, counterexample.  The claim says the expansion step of
`normalize` agrees with the four-strategy `AbbreviationExpanderService.expand`
on every remaining token.  On input `"CREST WHTNNG"` the remaining token
`WHTNNG` is kept as the capitalization `Whtnng` by `normalize` (which
only consults the dictionary), while `expand` resolves it to `Whitening`
through the vowel-pattern strategy, and no expansion pair is recorded. -/
theorem C1_counterexample :
    (normalize initBrand "CREST WHTNNG").normalized = "Crest Whtnng" ∧
    (normalize initBrand "CREST WHTNNG").tokens_expanded = [("CREST", "Crest")] ∧
    (expand zeroSim initBrand "WHTNNG").expanded = "Whitening" ∧
    ("Whtnng" : String) ≠ "Whitening" := by
  refine ⟨?_, ?_, ?_, ?_⟩ <;> exact of_decide_eq_true (by with_unfolding_all rfl)

/-- Claim C1, amended.  For every remaining token (those after the
consumed brand window), `normalize` applies only the dictionary
expansion `BrandDictionaryService.expand_abbreviation` and keeps the
expansion when found — recording the (original, expanded) pair — else
capitalizes the token unchanged; the four-strategy expander is not
consulted. -/
theorem C1_amended_expansion_step (st : BrandState) (used : ℕ) (tokens : List String) :
    expandLoop st used 0 tokens =
      ((tokens.drop used).map fun t => (expand_abbreviation st t).getD (pyCapitalize t),
       (tokens.drop used).filterMap fun t => (expand_abbreviation st t).map fun e => (t, e)) := by
  simpa using expandLoop_general st used tokens 0

/-- Claim C3, counterexample.  Normalizing the already-canonical
description records the identity pairs (Crest, Crest) and (Pro, Pro)
— the brand window pair and a dictionary self-expansion — so the
expansion list is not empty. -/
theorem C3_counterexample :
    (normalize initBrand "Crest Pro-Health Whitening 4.2oz").tokens_expanded =
      [("Crest", "Crest"), ("Pro", "Pro")] ∧
    ([("Crest", "Crest"), ("Pro", "Pro")] : List (String × String)) ≠ [] := by
  refine ⟨?_, ?_⟩ <;> exact of_decide_eq_true (by with_unfolding_all rfl)

/-- Claim C3, amended.  Normalizing the already-canonical description
`"Crest Pro-Health Whitening 4.2oz"` produces an expansion list whose
every pair leaves its token unchanged (original = expanded) — no token
is actually rewritten — although the list itself is not empty. -/
theorem C3_amended_idempotence :
    (normalize initBrand "Crest Pro-Health Whitening 4.2oz").tokens_expanded =
      [("Crest", "Crest"), ("Pro", "Pro")] ∧
    ((normalize initBrand "Crest Pro-Health Whitening 4.2oz").tokens_expanded.all
      fun p => p.1 == p.2) = true := by
  refine ⟨?_, ?_⟩ <;> exact of_decide_eq_true (by with_unfolding_all rfl)

/-- Claim C6, counterexample.  `calculate_final_confidence` clamps only
from above: at semantic score −1 it returns −0.7, which is outside
[0, 1], so the claimed `clamp(0, 1, ·)` behavior fails. -/
theorem C6_counterexample :
    calculate_final_confidence (-1) 0 0 = -(7/10) ∧
    ¬ (0 ≤ calculate_final_confidence (-1) 0 0) := by
  refine ⟨?_, ?_⟩ <;> exact of_decide_eq_true (by with_unfolding_all rfl)

/-- Claim C6, amended.  Final confidence is
`min(1, 0.70·semantic + 0.30·attribute + bonus)` — clamped from above
only — and therefore lies in [0, 1] whenever the three inputs are
nonnegative (negative semantic scores can push it below 0). -/
theorem C6_amended_clamp (s a b : ℚ) (hs : 0 ≤ s) (ha : 0 ≤ a) (hb : 0 ≤ b) :
    0 ≤ calculate_final_confidence s a b ∧ calculate_final_confidence s a b ≤ 1 := by
  unfold calculate_final_confidence
  constructor
  · have h1 : 0 ≤ 7/10 * s := by positivity
    have h2 : 0 ≤ 3/10 * a := by positivity
    exact le_min (by norm_num) (by linarith)
  · exact min_le_left _ _

/-- Witness for C6: the amended theorem applied at the concrete inputs
(0.5, 0.5, 0). -/
theorem C6_witness :
    0 ≤ calculate_final_confidence (1/2) (1/2) 0 ∧
    calculate_final_confidence (1/2) (1/2) 0 ≤ 1 :=
  C6_amended_clamp (1/2) (1/2) 0 (by norm_num) (by norm_num) (by norm_num)

/-- Claim C7, counterexample.  `normalize` removes every size-pattern
match before tokenizing (`re.sub` with no count): on
`"DOVE 250ml 500ml"` the second size token `500ml` is also deleted, so
the token list is `["DOVE"]`, not `["DOVE", "500ml"]` as the claim
(first occurrence only) would demand. -/
theorem C7_counterexample :
    tokenize (pyStrip (sizeSub (clean_text "DOVE 250ml 500ml"))) = ["DOVE"] ∧
    (["DOVE"] : List String) ≠ ["DOVE", "500ml"] := by
  refine ⟨?_, ?_⟩ <;> exact of_decide_eq_true (by with_unfolding_all rfl)

/-- Claim C7, amended.  Every occurrence of the size pattern is removed
from the cleaned text before tokenization, while the value and unit are
parsed from the first occurrence only. -/
theorem C7_amended_size_removal :
    extract_size (clean_text "DOVE 250ml 500ml") = (some 250, some "ml", some 250) ∧
    (normalize initBrand "DOVE 250ml 500ml").size_value = some 250 ∧
    (normalize initBrand "DOVE 250ml 500ml").size_unit = some "ml" ∧
    tokenize (pyStrip (sizeSub (clean_text "DOVE 250ml 500ml"))) = ["DOVE"] := by
  refine ⟨?_, ?_, ?_, ?_⟩ <;> exact of_decide_eq_true (by with_unfolding_all rfl)

/-- Claim C8.  `normalize` is a pure function of the input text and the
dictionary state: identical inputs and identical dictionary snapshots
produce identical NormalizationResults. -/
theorem C8_determinism (st st' : BrandState) (t t' : String)
    (h1 : st = st') (h2 : t = t') : normalize st t = normalize st' t' := by
  rw [h1, h2]

/-- Witness for C8: determinism applied at a concrete state and text. -/
theorem C8_witness : normalize initBrand "PEPSI 12oz" = normalize initBrand "PEPSI 12oz" :=
  C8_determinism initBrand initBrand "PEPSI 12oz" "PEPSI 12oz" rfl rfl

/-- A concrete admissible instantiation of the external text libraries:
identity accent folding and the discrete similarity, which satisfies the
`ratio(x, x) = 100` law of `rapidfuzz.fuzz.ratio`. -/
def extEq : Ext := ⟨id, fun s t => if s = t then 100 else 0⟩

/-- Claim C2, counterexample.  With identical brands on both sides and
identical positive canonical sizes, `calculate_attribute_score` returns
0.85 = 0.5 + 0.35, not 1.0: the category term (weight 0.15) is only
added when `category_match` is true, which is not implied by brand and
size identity (and is `False` by default). -/
theorem C2_counterexample :
    calculate_attribute_score extEq (some "Crest") (some "Crest")
      (some (12421/100)) (some (12421/100)) false = 17/20 ∧
    (17/20 : ℚ) ≠ 1 := by
  refine ⟨?_, ?_⟩ <;> exact of_decide_eq_true (by with_unfolding_all rfl)

/-- Claim C2, amended.  When the brand strings are nonempty and equal
after case/accent normalization and the canonical sizes are present,
positive and equal, `calculate_attribute_score` returns exactly
0.5 + 0.35 = 0.85, plus the 0.15 category term exactly when
`category_match` is set — so 1.0 requires the category flag as well.
Stated for every similarity function satisfying the `ratio(x,x) = 100`
law of the external `fuzz.ratio`. -/
theorem C2_amended_attribute_score (ext : Ext)
    (hr : ∀ s, ext.fuzzScore s s = 100) (mb rb : String) (ms : ℚ) (cat : Bool)
    (hmb : mb ≠ "") (hrb : rb ≠ "")
    (hn : normalize_text_basic ext mb = normalize_text_basic ext rb)
    (hms : 0 < ms) :
    calculate_attribute_score ext (some mb) (some rb) (some ms) (some ms) cat =
      if cat then 1 else 17/20 := by
  have hne : ms ≠ 0 := ne_of_gt hms
  simp only [calculate_attribute_score, pyTruthyS, pyTruthyQ, Option.getD_some,
    if_neg hmb, if_neg hrb, if_neg hne, hn, hr]
  simp only [Bool.and_self, if_true, decide_eq_true hms, sub_self, abs_zero, zero_div,
    max_self, sub_zero]
  cases cat <;> norm_num

/-- Witness for C2: the amended theorem applied at the discrete
similarity, brand "Crest" on both sides, size 1, category match true. -/
theorem C2_witness :
    calculate_attribute_score extEq (some "Crest") (some "Crest") (some 1) (some 1) true = 1 := by
  have h := C2_amended_attribute_score extEq (fun s => by simp [extEq]) "Crest" "Crest" 1 true
    (by decide) (by decide) rfl (by norm_num)
  simpa using h

/-- The learning state holding exactly one approved decision with
confidence 0.854, used to refute claim C5. -/
def stC5 : LearnState :=
  ⟨initBrand, [⟨"m1", "raw", "master", "approved", 427/500, "r", "t", none⟩], [], []⟩

set_option maxRecDepth 10000 in
/-- Claim C5, counterexample.  With a single approved decision of
confidence 0.854, the 5th-percentile index is 0 and the selected element
is 0.854, but the returned threshold is `round(0.854, 2) = 0.85`, which
is strictly below the minimum recorded approved confidence — refuting
both the claim that the threshold is the selected element itself and
that it is never below the minimum. -/
theorem C5_counterexample :
    approvedConfidences stC5 = [427/500] ∧
    (get_confidence_recommendations stC5).auto_confirm_threshold = 17/20 ∧
    ¬ (427/500 ≤ (17/20 : ℚ)) := by
  refine ⟨?_, ?_, ?_⟩ <;> exact of_decide_eq_true (by with_unfolding_all rfl)

/-- Claim C5, amended.  With at least one approved decision, the
auto-confirm threshold is the element at index `⌊0.05·count⌋` of the
ascending-sorted approved confidences rounded to two decimals
(`round(·, 2)`), and is therefore never below the minimum recorded
approved confidence minus 0.005 (the rounding slack). -/
theorem C5_amended_threshold (st : LearnState) (h : approvedConfidences st ≠ []) :
    (get_confidence_recommendations st).auto_confirm_threshold =
      pyRound2 ((List.insertionSort (· ≤ ·) (approvedConfidences st)).getD
        ((approvedConfidences st).length * 5 / 100) (19/20)) ∧
    ∀ m : ℚ, (∀ x ∈ approvedConfidences st, m ≤ x) →
      m - 1/200 ≤ (get_confidence_recommendations st).auto_confirm_threshold := by
  have hdec : st.decisions ≠ [] := by
    intro hd
    exact h (by simp [approvedConfidences, hd])
  have hemp : st.decisions.isEmpty = false := by
    simpa [List.isEmpty_iff] using hdec
  have hemp2 : (approvedConfidences st).isEmpty = false := by
    simpa [List.isEmpty_iff] using h
  have hthr : (get_confidence_recommendations st).auto_confirm_threshold =
      pyRound2 ((List.insertionSort (· ≤ ·) (approvedConfidences st)).getD
        ((approvedConfidences st).length * 5 / 100) (19/20)) := by
    simp only [get_confidence_recommendations, hemp, hemp2, Bool.false_eq_true, if_false]
  refine ⟨hthr, fun m hm => ?_⟩
  have hn0 : 0 < (approvedConfidences st).length := List.length_pos.mpr h
  have hlen : (List.insertionSort (· ≤ ·) (approvedConfidences st)).length =
      (approvedConfidences st).length :=
    (List.perm_insertionSort _ _).length_eq
  have hidx : (approvedConfidences st).length * 5 / 100 <
      (List.insertionSort (· ≤ ·) (approvedConfidences st)).length := by
    rw [hlen]
    omega
  have hmem : (List.insertionSort (· ≤ ·) (approvedConfidences st)).getD
      ((approvedConfidences st).length * 5 / 100) (19/20) ∈ approvedConfidences st :=
    ((List.perm_insertionSort _ _).mem_iff).mp (getD_mem _ _ _ hidx)
  have hle := hm _ hmem
  have hround := pyRound2_ge ((List.insertionSort (· ≤ ·) (approvedConfidences st)).getD
    ((approvedConfidences st).length * 5 / 100) (19/20))
  rw [hthr]
  linarith

/-- The learning state holding exactly one approved decision with
confidence 0.9, used as the witness input for C5. -/
def stC5w : LearnState :=
  ⟨initBrand, [⟨"m1", "raw", "master", "approved", 9/10, "r", "t", none⟩], [], []⟩

/-- Witness for C5: the amended theorem applied to a state with one
approved decision of confidence 0.9, with the lower bound instantiated
at 0.9. -/
theorem C5_witness :
    (get_confidence_recommendations stC5w).auto_confirm_threshold =
      pyRound2 ((List.insertionSort (· ≤ ·) (approvedConfidences stC5w)).getD
        ((approvedConfidences stC5w).length * 5 / 100) (19/20)) ∧
    (9/10 : ℚ) - 1/200 ≤ (get_confidence_recommendations stC5w).auto_confirm_threshold := by
  have h := C5_amended_threshold stC5w (by exact of_decide_eq_true (by with_unfolding_all rfl))
  exact ⟨h.1, h.2 (9/10) (by
    intro x hx
    have : approvedConfidences stC5w = [9/10] := of_decide_eq_true (by with_unfolding_all rfl)
    rw [this] at hx
    simpa using le_of_eq (List.mem_singleton.mp hx).symm)⟩

/-- Claim C9.  `record_decision` with any decision string other than
exactly `'approved'` (an arbitrary string included) increments the
source's rejected count and updates its rejected running-mean
confidence, leaves the approved statistics untouched, and runs no
pattern extraction (patterns and brand dictionary unchanged). -/
theorem C9_rejected_stats (st : LearnState) (mid raw master dec : String) (conf : ℚ)
    (r now : String) (corr : Option (List (String × String))) (h : dec ≠ "approved") :
    statsFor (record_decision st mid raw master dec conf r now corr).1 r =
      ⟨(statsFor st r).total + 1, (statsFor st r).approved, (statsFor st r).rejected + 1,
        (statsFor st r).avg_confidence_approved,
        ((statsFor st r).avg_confidence_rejected * ((statsFor st r).rejected : ℚ) + conf) /
          (((statsFor st r).rejected : ℚ) + 1)⟩ ∧
    (record_decision st mid raw master dec conf r now corr).1.patterns = st.patterns ∧
    (record_decision st mid raw master dec conf r now corr).1.brand = st.brand := by
  refine ⟨?_, ?_, ?_⟩ <;>
    simp only [record_decision, statsFor, update_retailer_stats, if_neg h,
      dictGet_dictInsert_self, Option.getD_some]
  simp only [RetailerStats.mk.injEq, Nat.add_sub_cancel, true_and, and_true]
  push_cast
  ring

/-- Witness for C9: the theorem applied to the fresh learning state and
the decision string "foo". -/
theorem C9_witness :
    statsFor (record_decision initLearn "m" "raw" "master" "foo" (3/4) "ret" "t" none).1 "ret" =
      ⟨(statsFor initLearn "ret").total + 1, (statsFor initLearn "ret").approved,
        (statsFor initLearn "ret").rejected + 1,
        (statsFor initLearn "ret").avg_confidence_approved,
        ((statsFor initLearn "ret").avg_confidence_rejected *
            ((statsFor initLearn "ret").rejected : ℚ) + 3/4) /
          (((statsFor initLearn "ret").rejected : ℚ) + 1)⟩ ∧
    (record_decision initLearn "m" "raw" "master" "foo" (3/4) "ret" "t" none).1.patterns =
      initLearn.patterns ∧
    (record_decision initLearn "m" "raw" "master" "foo" (3/4) "ret" "t" none).1.brand =
      initLearn.brand :=
  C9_rejected_stats initLearn "m" "raw" "master" "foo" (3/4) "ret" "t" none (by decide)

/-- Claim C10.  On input `"DOVE 0ml"` the extracted size value 0.0 and
its canonical conversion are recorded in the result, but no size suffix
is appended to the normalized string (Python's zero-is-falsy guard);
in general the suffix guard `size_value and size_unit` holds exactly
when the value is present and nonzero and the unit is present and
nonempty. -/
theorem C10_zero_size :
    (normalize initBrand "DOVE 0ml").size_value = some 0 ∧
    (normalize initBrand "DOVE 0ml").size_unit = some "ml" ∧
    (normalize initBrand "DOVE 0ml").size_normalized_ml = some 0 ∧
    (normalize initBrand "DOVE 0ml").normalized = "Dove" ∧
    ∀ (v : Option ℚ) (u : Option String),
      (pyTruthyQ v && pyTruthyS u) = true ↔
        ((∃ x, v = some x ∧ x ≠ 0) ∧ ∃ s, u = some s ∧ s ≠ "") := by
  refine ⟨of_decide_eq_true (by with_unfolding_all rfl),
    of_decide_eq_true (by with_unfolding_all rfl),
    of_decide_eq_true (by with_unfolding_all rfl),
    of_decide_eq_true (by with_unfolding_all rfl), ?_⟩
  intro v u
  rcases v with _ | x <;> rcases u with _ | s <;>
    simp [pyTruthyQ, pyTruthyS, imp_false, ite_eq_iff]

/-- Claim C4.  Starting from any state in which the (uppercase, stripped)
abbreviation `A` has no recorded pattern, no learned mapping and no
static dictionary entry, and recording the same approved
(`A`, `E`) pair three times for a retailer `r`: the first two
`_record_pattern` calls do not touch the brand dictionary (after two
calls confidence is 0.8 but the occurrence count is only 2, so the
`conf ≥ 0.8 ∧ occ ≥ 3` promotion guard still fails), the third call
promotes the learned expansion (confidence 0.85, occurrences 3), and a
subsequent `expand` call then returns the learned (capitalized)
expansion with confidence 1.0 and method "dictionary" through the
dictionary strategy. -/
theorem C4_pattern_promotion (sim : String → String → ℚ) (st : LearnState)
    (A E r t1 t2 t3 : String)
    (hupper : pyUpper A = A) (hstrip : pyStrip A = A)
    (hpat : dictGet A st.patterns = none)
    (hstatic : dictGet A abbreviationDict = none) :
    (record_pattern st A E r t1).brand = st.brand ∧
    (record_pattern (record_pattern st A E r t1) A E r t2).brand = st.brand ∧
    dictGet A (record_pattern (record_pattern (record_pattern st A E r t1) A E r t2)
        A E r t3).brand.learned = some (pyCapitalize E) ∧
    expand sim (record_pattern (record_pattern (record_pattern st A E r t1) A E r t2)
        A E r t3).brand A = ⟨A, pyCapitalize E, 1, "dictionary"⟩ := by
  have e1 : record_pattern st A E r t1 =
      { st with patterns := dictInsert A ⟨A, pyCapitalize E, 1, 7/10, [r], t1⟩ st.patterns } := by
    simp only [record_pattern, hupper, hpat, dictGet_dictInsert_self]
    norm_num
  have hget1 : dictGet A (dictInsert A (⟨A, pyCapitalize E, 1, 7/10, [r], t1⟩ : LearnedPattern)
      st.patterns) = some ⟨A, pyCapitalize E, 1, 7/10, [r], t1⟩ :=
    dictGet_dictInsert_self _ _ _
  have e2 : record_pattern (record_pattern st A E r t1) A E r t2 =
      { st with patterns := dictInsert A ⟨A, pyCapitalize E, 2, 4/5, [r], t2⟩ (dictInsert A ⟨A, pyCapitalize E, 1, 7/10, [r], t1⟩ st.patterns) } := by
    rw [e1]
    simp only [record_pattern, hupper, hget1, dictGet_dictInsert_self]
    norm_num [min_def]
  have hget2 : dictGet A (dictInsert A (⟨A, pyCapitalize E, 2, 4/5, [r], t2⟩ : LearnedPattern)
      (dictInsert A (⟨A, pyCapitalize E, 1, 7/10, [r], t1⟩ : LearnedPattern) st.patterns)) =
      some ⟨A, pyCapitalize E, 2, 4/5, [r], t2⟩ :=
    dictGet_dictInsert_self _ _ _
  have e3 : (record_pattern (record_pattern (record_pattern st A E r t1) A E r t2)
      A E r t3).brand = learn_abbreviation st.brand A (pyCapitalize E) := by
    rw [e2]
    simp only [record_pattern, hupper, hget2, dictGet_dictInsert_self]
    norm_num [min_def]
  have hlearned : dictGet A (learn_abbreviation st.brand A (pyCapitalize E)).learned =
      some (pyCapitalize E) := by
    simp only [learn_abbreviation, hstrip, hupper, dictGet_dictInsert_self]
  refine ⟨by rw [e1], by rw [e2], by rw [e3]; exact hlearned, ?_⟩
  rw [e3]
  simp only [expand, expand_abbreviation, hstrip, hupper, hstatic, hlearned]

/-- Witness for C4: the promotion theorem applied to the fresh learning
state with the abbreviation "QQQ", expansion "Quqqu" and retailer "a". -/
theorem C4_witness :
    (record_pattern initLearn "QQQ" "Quqqu" "a" "t1").brand = initLearn.brand ∧
    (record_pattern (record_pattern initLearn "QQQ" "Quqqu" "a" "t1")
        "QQQ" "Quqqu" "a" "t2").brand = initLearn.brand ∧
    dictGet "QQQ" (record_pattern (record_pattern (record_pattern initLearn "QQQ" "Quqqu" "a" "t1")
        "QQQ" "Quqqu" "a" "t2") "QQQ" "Quqqu" "a" "t3").brand.learned =
      some (pyCapitalize "Quqqu") ∧
    expand zeroSim (record_pattern (record_pattern (record_pattern initLearn "QQQ" "Quqqu" "a" "t1")
        "QQQ" "Quqqu" "a" "t2") "QQQ" "Quqqu" "a" "t3").brand "QQQ" =
      ⟨"QQQ", pyCapitalize "Quqqu", 1, "dictionary"⟩ :=
  C4_pattern_promotion zeroSim initLearn "QQQ" "Quqqu" "a" "t1" "t2" "t3"
    (of_decide_eq_true (by with_unfolding_all rfl))
    (of_decide_eq_true (by with_unfolding_all rfl))
    (of_decide_eq_true (by with_unfolding_all rfl))
    (of_decide_eq_true (by with_unfolding_all rfl))

end HarmonyAI
